import Mathlib

/-!
Shallow embedding of `src/Code.js` from wikimedia/alertreview.

The file contains two near-identical Apps Script variants; the functions
embedded here are, in source order: `deduplicateAlerts` (both variants,
identical semantics), `calculateTotalAlertsCount`, `calculateTopAlertsCount`,
`calculateTopAlertsPercent`, `fetchSplunkOnCallData`, `fetchEmailAlerts`,
`fetchAlertsData`, `processAlerts` and `runAlertsAnalysis`.

JavaScript semantics modelled explicitly:
* `String.prototype.toLowerCase` on basic-latin text (`Char.toLower` per char);
* plain objects used as maps: insertion-ordered string keys, except that
  array-index keys (canonical decimals below 2^32 - 1) enumerate first, in
  ascending numeric order (`Object.keys` / `Object.entries` order);
* `Array.prototype.sort` with comparator `(a, b) => b.count - a.count`:
  ECMA-262 requires a stable sort, and a stable sort by a total preorder
  comparator has a unique result, so it is modelled with
  `List.insertionSort` (which the kernel can evaluate);
* `parseInt(s, 10) || 0`;
* IEEE division and `Number.prototype.toFixed(2)` on the exact rationals
  that actually arise (integer counts), including `NaN` and infinities.
-/

namespace AlertReview

/-- JS `s.toLowerCase()` on basic-latin text: lower-case every character. -/
def jsToLowerCase (s : String) : String :=
  ⟨s.data.map Char.toLower⟩

/-- Value of a list of decimal digit characters, most significant first. -/
def digitsToNat (ds : List Char) : Nat :=
  ds.foldl (fun n c => n * 10 + (c.toNat - 48)) 0

/-- Is `s` a canonical array-index property key (ECMA-262 `Object.keys`
ordering): a non-empty all-digit string, no leading zero except `"0"`
itself, whose value is below 2^32 - 1? -/
def isArrayIndexKey (s : String) : Bool :=
  match s.data with
  | [] => false
  | c :: cs =>
    (c :: cs).all Char.isDigit &&
    (decide (c ≠ '0') || decide (cs = [])) &&
    decide (digitsToNat (c :: cs) < 4294967295)

/-- `counts[key] = (counts[key] || 0) + 1` on a plain object modelled as an
insertion-ordered association list: an existing key is updated in place, a
new key is appended at the end. -/
def bump : List (String × Int) → String → List (String × Int)
  | [], key => [(key, 1)]
  | (k, c) :: rest, key =>
    if k = key then (k, c + 1) :: rest else (k, c) :: bump rest key

/-- The accumulation loop of `deduplicateAlerts` (src/Code.js:439-444 and
181-185): lower-case each subject and count occurrences in a plain object. -/
def accumulate (subjects : List String) : List (String × Int) :=
  subjects.foldl (fun acc subject => bump acc (jsToLowerCase subject)) []

/-- Numeric order on array-index property keys. -/
def keyLE (a b : String × Int) : Prop :=
  digitsToNat a.1.data ≤ digitsToNat b.1.data

instance : DecidableRel keyLE := fun a b =>
  inferInstanceAs (Decidable (digitsToNat a.1.data ≤ digitsToNat b.1.data))

instance : IsTotal (String × Int) keyLE := ⟨fun _ _ => Nat.le_total _ _⟩

instance : IsTrans (String × Int) keyLE :=
  ⟨fun _ _ _ h h' => Nat.le_trans h h'⟩

/-- JS property enumeration order for the own string keys of a plain object:
array-index keys first, in ascending numeric order, then the remaining
string keys in insertion order. -/
def jsObjectEntries (props : List (String × Int)) : List (String × Int) :=
  (props.filter (fun p => isArrayIndexKey p.1)).insertionSort keyLE
    ++ props.filter (fun p => !isArrayIndexKey p.1)

/-- One aggregated alert `{ subject, count }` (the spreadsheet variant calls
the string field `name`). -/
structure AlertEntry where
  label : String
  count : Int
  deriving Repr, DecidableEq

/-- The order imposed by the comparator `(a, b) => b.count - a.count`:
`a` may stay before `b` exactly when `b.count ≤ a.count`. -/
def countGE (a b : AlertEntry) : Prop :=
  b.count ≤ a.count

instance : DecidableRel countGE := fun a b =>
  inferInstanceAs (Decidable (b.count ≤ a.count))

instance : IsTotal AlertEntry countGE := ⟨fun a b => Int.le_total b.count a.count⟩

instance : IsTrans AlertEntry countGE :=
  ⟨fun _ _ _ h h' => Int.le_trans h' h⟩

/-- The `{ subject, count }` records built by `Object.entries(counts).map`
(src/Code.js:447-450), i.e. the array as it stands before the final
`.sort`, in object-key enumeration order. -/
def preSortEntries (subjects : List String) : List AlertEntry :=
  (jsObjectEntries (accumulate subjects)).map (fun p => AlertEntry.mk p.1 p.2)

/-- `deduplicateAlerts` (src/Code.js:438-451, and the identical first
variant at 179-197): lower-case subjects, count occurrences keyed by the
lower-cased subject, emit `{ subject, count }` records in object-key
enumeration order, and stable-sort them by descending count. -/
def deduplicateAlerts (subjects : List String) : List AlertEntry :=
  (preSortEntries subjects).insertionSort countGE

/-- The distinct normalized labels in the order they were first encountered
during accumulation. -/
def firstEncounterOrder (subjects : List String) : List String :=
  (accumulate subjects).map Prod.fst

example : deduplicateAlerts ["[3x] Disk full"] = [⟨"[3x] disk full", 1⟩] := by decide

example : deduplicateAlerts ["Disk Full", "disk full", "CPU High"] =
    [⟨"disk full", 2⟩, ⟨"cpu high", 1⟩] := by decide

example : deduplicateAlerts ["zebra", "2025"] = [⟨"2025", 1⟩, ⟨"zebra", 1⟩] := by decide

/-! ### Report metrics (src/Code.js:384-411)

JS numbers are modelled as exact rationals extended with `NaN` and the two
infinities; the only operations the metrics perform are integer sums,
division, multiplication by 100 and `toFixed(2)`.
-/

/-- A JS number as it can arise in `calculateTopAlertsPercent`. -/
inductive JsNum where
  | nan
  | posInf
  | negInf
  | num (q : ℚ)
  deriving Repr, DecidableEq

/-- JS division `a / b` of two finite numbers: `0 / 0` is `NaN`, and a
nonzero numerator over `(+0)` gives a signed infinity. Core `Rat`
operations are used throughout so the kernel can evaluate them. -/
def jsDiv (a b : ℚ) : JsNum :=
  if b = 0 then
    if a = 0 then .nan else if a.blt 0 then .negInf else .posInf
  else
    .num (a.div b)

/-- JS multiplication of a division result by the literal `100`. -/
def jsMul100 : JsNum → JsNum
  | .nan => .nan
  | .posInf => .posInf
  | .negInf => .negInf
  | .num q => .num (q.mul 100)

/-- Left-pad a fraction below 100 to two digits. -/
def twoDigits (m : Nat) : String :=
  (if m < 10 then "0" else "") ++ toString m

/-- ECMA-262 `toFixed(2)` for a nonnegative finite number: the integer `n`
closest to `q * 100`, larger on ties, printed with a decimal point before
the last two digits. -/
def fixed2 (q : ℚ) : String :=
  let n : Nat := ((q.mul 100).add (mkRat 1 2)).floor.toNat
  toString (n / 100) ++ "." ++ twoDigits (n % 100)

/-- ECMA-262 `Number.prototype.toFixed(2)`: `NaN` and infinities print as
their names; a finite number contributes its sign and `fixed2` of its
absolute value. -/
def jsToFixed2 : JsNum → String
  | .nan => "NaN"
  | .posInf => "Infinity"
  | .negInf => "-Infinity"
  | .num q => if q.blt 0 then "-" ++ fixed2 q.neg else fixed2 q

/-- `calculateTotalAlertsCount` (src/Code.js:384-386):
`data.reduce((total, {count}) => total + count, 0)`. -/
def calculateTotalAlertsCount (data : List AlertEntry) : Int :=
  data.foldl (fun total a => total + a.count) 0

/-- `calculateTopAlertsCount` (src/Code.js:395-398): copy the array, sort
it by descending count, take the first `topCount` entries and sum their
counts. -/
def calculateTopAlertsCount (data : List AlertEntry) (topCount : Nat) : Int :=
  ((data.insertionSort countGE).take topCount).foldl
    (fun total a => total + a.count) 0

/-- `calculateTopAlertsPercent` (src/Code.js:407-411):
`((topAlertsCount / totalAlertsCount) * 100).toFixed(2)`. There is no
guard for a zero total. -/
def calculateTopAlertsPercent (data : List AlertEntry) (topCount : Nat) : String :=
  jsToFixed2 (jsMul100 (jsDiv (calculateTopAlertsCount data topCount)
    (calculateTotalAlertsCount data)))

example : calculateTotalAlertsCount [] = 0 := by decide

unseal Rat.mul Rat.add Rat.inv in
example : calculateTopAlertsPercent [] 5 = "NaN" := by decide

unseal Rat.mul Rat.add Rat.inv in
example : calculateTopAlertsPercent [⟨"a", 3⟩, ⟨"b", 1⟩] 1 = "75.00" := by decide

unseal Rat.mul Rat.add Rat.inv in
example : calculateTopAlertsPercent [⟨"disk full", 3⟩, ⟨"cpu high", 1⟩] 5 = "100.00" := by decide

/-! ### Data sources and the report run (src/Code.js:1-73, 158-171)

The external collaborators are modelled as an environment: the contents of
the spreadsheet tab named `SplunkOnCall` (if it exists) and the subjects
returned by the Gmail search. A thrown JS exception is an `Except.error`.
-/

/-- A thrown JS exception. Reading the undeclared variable `sheetName`
(src/Code.js:57) throws a `ReferenceError`; destructuring an empty
`getValues()` result and then calling `indexOf` on `undefined` throws a
`TypeError`; `throw new Error(msg)` carries `msg`. -/
inductive JsError where
  | referenceError (name : String)
  | typeError (msg : String)
  | error (msg : String)
  deriving Repr, DecidableEq

/-- The cell grid returned by `sheet.getDataRange().getValues()`. -/
structure SheetData where
  rows : List (List String)
  deriving Repr, DecidableEq

/-- The external world of one report run: the `SplunkOnCall` sheet looked
up by `spreadsheet.getSheetByName` (none when absent), and the subjects of
all messages of all threads found by `GmailApp.search`. -/
structure Env where
  splunkOnCallSheet : Option SheetData
  emailSubjects : List String
  deriving Repr, DecidableEq

/-- JS `Array.prototype.indexOf`, scanning from position `i`. -/
def jsIndexOfFrom (x : String) : List String → Int → Int
  | [], _ => -1
  | y :: ys, i => if y = x then i else jsIndexOfFrom x ys (i + 1)

/-- JS `headers.indexOf(x)`: the index of the first occurrence of `x`, or
`-1` when `x` does not occur. -/
def jsIndexOf (headers : List String) (x : String) : Int :=
  jsIndexOfFrom x headers 0

/-- JS `parseInt(s, 10) || 0`: skip leading whitespace, read an optional
sign and a maximal run of decimal digits; `NaN` (no digits) falls back to
`0` through `|| 0`. -/
def parseIntOr0 (s : String) : Int :=
  let cs := s.data.dropWhile (fun c => c = ' ' || c = '\t' || c = '\n' || c = '\r')
  let signed : Int × List Char :=
    match cs with
    | '-' :: rest => (-1, rest)
    | '+' :: rest => (1, rest)
    | _ => (1, cs)
  let ds := signed.2.takeWhile Char.isDigit
  if ds.isEmpty then 0 else signed.1 * (digitsToNat ds : Int)

/-- JS `row[i]` for a nonnegative index, with `undefined` (out of range)
modelled as the empty string; the indices used are the header indices of
found columns, and no claim depends on short rows. -/
def jsAt (row : List String) (i : Int) : String :=
  (row.drop i.toNat).headD ""

/-- `fetchSplunkOnCallData` (src/Code.js:54-73). When the sheet is absent
the guard's logging template reads the undeclared identifier `sheetName`,
so the branch throws a `ReferenceError` instead of returning `[]`. With
data present, the header row is searched for the columns `Service` and
`Number Of Alerts`; if either is missing an `Error` is thrown, otherwise
every data row becomes a `{name, count}` record and the records are sorted
by descending count. -/
def fetchSplunkOnCallData (env : Env) : Except JsError (List AlertEntry) :=
  match env.splunkOnCallSheet with
  | none => .error (.referenceError "sheetName")
  | some sheet =>
    match sheet.rows with
    | [] => .error (.typeError "undefined has no indexOf")
    | columnHeaders :: dataRows =>
      let serviceIndex := jsIndexOf columnHeaders "Service"
      let countIndex := jsIndexOf columnHeaders "Number Of Alerts"
      if serviceIndex = -1 ∨ countIndex = -1 then
        .error (.error "Required columns not found in the SplunkOnCall sheet")
      else
        .ok ((dataRows.map (fun row =>
          AlertEntry.mk (jsAt row serviceIndex)
            (parseIntOr0 (jsAt row countIndex)))).insertionSort countGE)

/-- `fetchEmailAlerts` (src/Code.js:158-171 and 418-431): collect every
message subject of every thread found by the Gmail query and deduplicate
them. -/
def fetchEmailAlerts (env : Env) : List AlertEntry :=
  deduplicateAlerts env.emailSubjects

/-- `fetchAlertsData` (src/Code.js:36-46): dispatch on the source name;
unknown sources log a message and return `[]`. -/
def fetchAlertsData (env : Env) (source : String) : Except JsError (List AlertEntry) :=
  if source = "SplunkOnCall" then fetchSplunkOnCallData env
  else if source = "EmailAlerts" then .ok (fetchEmailAlerts env)
  else .ok []

/-- `SHEET_NAMES[source]` (src/Code.js:3-6). -/
def sheetNameOf (source : String) : String :=
  if source = "SplunkOnCall" then "Top 5 Paging Alerts"
  else "Top root@ Mail Alerts"

/-- `processAlerts` (src/Code.js:24-27) with `outputData` abstracted to the
write it performs: fetch the source's data and write it to the source's
output sheet, propagating any thrown exception. -/
def processAlerts (env : Env) (source : String) :
    Except JsError (String × List AlertEntry) :=
  (fetchAlertsData env source).map (fun data => (sheetNameOf source, data))

/-- The `forEach` loop of `runAlertsAnalysis`: process sources in order,
recording each completed write; an exception propagates out of the loop,
abandoning the remaining sources. -/
def runSources (env : Env) : List String → List (String × List AlertEntry) →
    List (String × List AlertEntry) × Option JsError
  | [], written => (written, none)
  | source :: rest, written =>
    match processAlerts env source with
    | .error e => (written, some e)
    | .ok out => runSources env rest (written ++ [out])

/-- `runAlertsAnalysis` (src/Code.js:11-16): iterate over
`Object.keys(SHEET_NAMES)`, which enumerates as
`["SplunkOnCall", "EmailAlerts"]`. The result is the list of completed
sheet writes together with the exception that escaped, if any. -/
def runAlertsAnalysis (env : Env) :
    List (String × List AlertEntry) × Option JsError :=
  runSources env ["SplunkOnCall", "EmailAlerts"] []

example :
    runAlertsAnalysis ⟨some ⟨[["Service", "Number Of Alerts"], ["maps", "7"], ["dns", "12"]]⟩, ["Ping"]⟩ =
      ([("Top 5 Paging Alerts", [⟨"dns", 12⟩, ⟨"maps", 7⟩]),
        ("Top root@ Mail Alerts", [⟨"ping", 1⟩])], none) := by decide

example :
    runAlertsAnalysis ⟨some ⟨[["Foo"]]⟩, ["Ping"]⟩ =
      ([], some (.error "Required columns not found in the SplunkOnCall sheet")) := by decide

example : fetchSplunkOnCallData ⟨none, []⟩ = .error (.referenceError "sheetName") := rfl

/-! ### Spec-side comparison definitions

The spec (§4.1, §8) describes a multiplier annotation (`[3x]`,
`[FIRING:2]`) that the claims compare against the code; the code itself
extracts no multiplier, so these definitions follow the spec's words and
exist solely to state those comparisons.
-/

/-- Following the spec §4.1, a multiplier-annotation match at the head of
the character list: either a bracketed digit run followed by `x` (`[3x]`),
or the bracketed literal `FIRING:` followed by a digit run (`[FIRING:2]`,
matched after the spec's lower-casing step, hence `firing:`). -/
def specMatchAt (cs : List Char) : Option Nat :=
  match cs with
  | '[' :: rest =>
    (match rest.takeWhile Char.isDigit, rest.dropWhile Char.isDigit with
     | d :: ds, 'x' :: ']' :: _ => some (digitsToNat (d :: ds))
     | _, _ =>
       match rest with
       | 'f' :: 'i' :: 'r' :: 'i' :: 'n' :: 'g' :: ':' :: rest2 =>
         (match rest2.takeWhile Char.isDigit, rest2.dropWhile Char.isDigit with
          | d :: ds, ']' :: _ => some (digitsToNat (d :: ds))
          | _, _ => none)
       | _ => none)
  | _ => none

/-- Following the spec §4.1: only the first match in the string is
honored; with no match the multiplier defaults to 1. -/
def specFirstMultiplier : List Char → Nat
  | [] => 1
  | c :: cs =>
    match specMatchAt (c :: cs) with
    | some n => n
    | none => specFirstMultiplier cs

/-- Following the spec §4.1: the multiplier `normalize` would extract from
a raw label (after the spec's lower-casing step). -/
def specMultiplier (raw : String) : Nat :=
  specFirstMultiplier (jsToLowerCase raw).data

/-- Following claim C3's words: entries of the aggregation output with
equal counts appear in the order in which their normalized labels were
first encountered during accumulation. -/
def specTiesByFirstEncounter (subjects : List String) : Prop :=
  (deduplicateAlerts subjects).Pairwise (fun a b =>
    a.count = b.count →
      jsIndexOf (firstEncounterOrder subjects) a.label <
        jsIndexOf (firstEncounterOrder subjects) b.label)

instance (subjects : List String) : Decidable (specTiesByFirstEncounter subjects) :=
  inferInstanceAs (Decidable ((deduplicateAlerts subjects).Pairwise _))

example : specMultiplier "[3x] Disk full" = 3 := by decide
example : specMultiplier "[FIRING:2] cpu high" = 2 := by decide
example : specMultiplier "Plain Subject" = 1 := by decide

/-! ### The cache-through fetch wrapper (spec §4.3)

Modelled from the spec: no cache wrapper (`fetchWithCache` /
`CacheService` usage) appears in `src/Code.js`; the definitions below
follow §4.3 of the spec. Time is an abstract tick counter; an entry
written at time `t` with TTL `ttl` is readable strictly before `t + ttl`.
`JSON.parse ∘ JSON.stringify` is the identity on arrays of
`{subject, count}` records, so serialization round-trips are modelled as
the identity and the cache stores the value itself. -/
structure CacheState where
  entries : List (String × List AlertEntry × Nat)
  deriving Repr, DecidableEq

/-- Modelled from the spec §4.3: a cache read, `none` on a missing or
expired entry. -/
def cacheRead (st : CacheState) (now : Nat) (key : String) : Option (List AlertEntry) :=
  match st.entries.find? (fun e => e.1 = key) with
  | some e => if now < e.2.2 then some e.2.1 else none
  | none => none

/-- The outcome of one `fetchWithCache` call: the returned value, the
cache afterwards, and how often the producer was invoked during the call. -/
structure FetchOutcome where
  value : List AlertEntry
  cache : CacheState
  producerCalls : Nat
  deriving Repr, DecidableEq

/-- Modelled from the spec §4.3: `fetchWithCache(key, ttlSeconds,
producer)`. On a hit, deserialize and return the cached value without
calling the producer; on a miss, invoke the producer, store its result
under `key` with the TTL, and return it. -/
def fetchWithCache (st : CacheState) (now : Nat) (key : String)
    (ttlSeconds : Nat) (producer : List AlertEntry) : FetchOutcome :=
  match cacheRead st now key with
  | some v => ⟨v, st, 0⟩
  | none => ⟨producer, ⟨(key, producer, now + ttlSeconds) :: st.entries⟩, 1⟩

/-! ### Helper lemmas -/

theorem charToNat_ofNat_valid {n : Nat} (h : n.isValidChar) :
    (Char.ofNat n).toNat = n := by
  simp [Char.ofNat, dif_pos h, Char.ofNatAux, Char.toNat, UInt32.toNat]

theorem charToLower_toLower (c : Char) : c.toLower.toLower = c.toLower := by
  unfold Char.toLower
  by_cases h : c.toNat ≥ 65 ∧ c.toNat ≤ 90
  · rw [if_pos h]
    have hv : (c.toNat + 32).isValidChar := Or.inl (by omega)
    rw [charToNat_ofNat_valid hv, if_neg (by omega)]
  · rw [if_neg h, if_neg h]

theorem bump_snd_sum (acc : List (String × Int)) (key : String) :
    ((bump acc key).map Prod.snd).sum = (acc.map Prod.snd).sum + 1 := by
  induction acc with
  | nil => simp [bump]
  | cons p rest ih =>
    by_cases h : p.1 = key
    · simp only [bump, if_pos h, List.map_cons, List.sum_cons]
      ring
    · simp only [bump, if_neg h, List.map_cons, List.sum_cons, ih]
      ring

theorem accumulate_go_snd_sum (subjects : List String) :
    ∀ acc : List (String × Int),
      ((subjects.foldl (fun acc subject => bump acc (jsToLowerCase subject)) acc).map
        Prod.snd).sum = (acc.map Prod.snd).sum + subjects.length := by
  induction subjects with
  | nil => intro acc; simp
  | cons s rest ih =>
    intro acc
    simp only [List.foldl_cons, ih (bump acc (jsToLowerCase s)), bump_snd_sum,
      List.length_cons]
    push_cast
    ring

theorem accumulate_snd_sum (subjects : List String) :
    ((accumulate subjects).map Prod.snd).sum = subjects.length := by
  have h := accumulate_go_snd_sum subjects []
  simpa [accumulate] using h

theorem bump_fst (acc : List (String × Int)) (key : String) :
    (bump acc key).map Prod.fst =
      if key ∈ acc.map Prod.fst then acc.map Prod.fst
      else acc.map Prod.fst ++ [key] := by
  induction acc with
  | nil => simp [bump]
  | cons p rest ih =>
    by_cases h : p.1 = key
    · simp [bump, if_pos h, h]
    · have hne : ¬ key = p.1 := fun hk => h hk.symm
      by_cases hm : key ∈ rest.map Prod.fst
      · simp [bump, if_neg h, ih, hm, hne]
      · simp [bump, if_neg h, ih, hm, hne]

theorem bump_fst_nodup (acc : List (String × Int)) (key : String)
    (h : (acc.map Prod.fst).Nodup) : ((bump acc key).map Prod.fst).Nodup := by
  rw [bump_fst]
  by_cases hm : key ∈ acc.map Prod.fst
  · rwa [if_pos hm]
  · rw [if_neg hm]
    exact h.append (List.nodup_singleton key)
      (List.disjoint_singleton.mpr hm)

theorem accumulate_go_fst_nodup (subjects : List String) :
    ∀ acc : List (String × Int), (acc.map Prod.fst).Nodup →
      (((subjects.foldl (fun acc subject => bump acc (jsToLowerCase subject)) acc).map
        Prod.fst)).Nodup := by
  induction subjects with
  | nil => intro acc h; simpa using h
  | cons s rest ih =>
    intro acc h
    exact ih (bump acc (jsToLowerCase s)) (bump_fst_nodup acc (jsToLowerCase s) h)

theorem accumulate_fst_nodup (subjects : List String) :
    ((accumulate subjects).map Prod.fst).Nodup :=
  accumulate_go_fst_nodup subjects [] (by simp)

theorem jsObjectEntries_perm (props : List (String × Int)) :
    List.Perm (jsObjectEntries props) props := by
  unfold jsObjectEntries
  exact (((props.filter (fun p => isArrayIndexKey p.1)).perm_insertionSort
    keyLE).append (List.Perm.refl _)).trans
    (List.filter_append_perm (fun p => isArrayIndexKey p.1) props)

theorem preSortEntries_perm (subjects : List String) :
    List.Perm (preSortEntries subjects)
      ((accumulate subjects).map (fun p => AlertEntry.mk p.1 p.2)) :=
  (jsObjectEntries_perm (accumulate subjects)).map _

theorem deduplicateAlerts_perm (subjects : List String) :
    List.Perm (deduplicateAlerts subjects)
      ((accumulate subjects).map (fun p => AlertEntry.mk p.1 p.2)) :=
  ((preSortEntries subjects).perm_insertionSort countGE).trans
    (preSortEntries_perm subjects)

theorem jsIndexOfFrom_not_mem {x : String} {l : List String}
    (h : x ∉ l) : ∀ i : Int, jsIndexOfFrom x l i = -1 := by
  induction l with
  | nil => intro i; rfl
  | cons y ys ih =>
    intro i
    have hy : y ≠ x := fun hxy => h (hxy ▸ List.mem_cons_self y ys)
    simp only [jsIndexOfFrom, if_neg hy]
    exact ih (fun hm => h (List.mem_cons_of_mem y hm)) (i + 1)

theorem jsIndexOf_not_mem {x : String} {l : List String} (h : x ∉ l) :
    jsIndexOf l x = -1 :=
  jsIndexOfFrom_not_mem h 0

/-! ### Claim theorems -/

/-- C1, counterexample: for the raw label sequence `["[3x] disk full"]` the
aggregation's counts sum to 1 (each raw label contributes exactly 1), while
the multipliers extracted per the spec sum to 3, so the claimed equality
fails. -/
theorem claimC1_counterexample :
    ¬ (((deduplicateAlerts ["[3x] disk full"]).map (fun a => a.count)).sum =
        ((["[3x] disk full"].map specMultiplier).sum : Int)) := by
  decide

/-- C1, amended: the sum of the `count` fields over the aggregation's
output equals the number of raw labels — the code increments each
lower-cased subject's count by exactly 1 and extracts no bracket
multiplier. -/
theorem deduplicateAlerts_count_sum (subjects : List String) :
    ((deduplicateAlerts subjects).map (fun a => a.count)).sum =
      (subjects.length : Int) := by
  have hperm := (deduplicateAlerts_perm subjects).map (fun a => a.count)
  rw [hperm.sum_eq, List.map_map]
  have : ((fun a : AlertEntry => a.count) ∘ fun p : String × Int =>
      AlertEntry.mk p.1 p.2) = Prod.snd := rfl
  rw [this, accumulate_snd_sum]

/-- C2, counterexample: the normalizer is `subject.toLowerCase()` alone
(src/Code.js:441); it maps `"[3x] Disk full"` to `"[3x] disk full"` with
count contribution 1 — the bracket token is not stripped and produces no
multiplier of 3. -/
theorem claimC2_counterexample :
    deduplicateAlerts ["[3x] Disk full"] = [⟨"[3x] disk full", 1⟩] ∧
      "[3x] disk full" ≠ "disk full" := by
  decide

/-- C2, amended: the normalizer only lower-cases (no trim, no bracket
stripping, no multiplier parsing): `"[3x] Disk full"` maps to
`"[3x] disk full"`, `"[FIRING:2] cpu high"` to `"[firing:2] cpu high"`,
and `"Plain Subject"` to `"plain subject"`, each counted once. -/
theorem normalizer_lowercases_only :
    jsToLowerCase "[3x] Disk full" = "[3x] disk full" ∧
    jsToLowerCase "[FIRING:2] cpu high" = "[firing:2] cpu high" ∧
    jsToLowerCase "Plain Subject" = "plain subject" ∧
    deduplicateAlerts ["[3x] Disk full"] = [⟨"[3x] disk full", 1⟩] ∧
    deduplicateAlerts ["[FIRING:2] cpu high"] = [⟨"[firing:2] cpu high", 1⟩] ∧
    deduplicateAlerts ["Plain Subject"] = [⟨"plain subject", 1⟩] := by
  decide

/-- C3, counterexample: for the input `["zebra", "2025"]` both normalized
labels have count 1, `"zebra"` was encountered first, yet the output lists
`"2025"` first, because `Object.entries` enumerates array-index keys such
as `"2025"` before other string keys regardless of insertion order. -/
theorem claimC3_counterexample :
    deduplicateAlerts ["zebra", "2025"] = [⟨"2025", 1⟩, ⟨"zebra", 1⟩] ∧
    firstEncounterOrder ["zebra", "2025"] = ["zebra", "2025"] ∧
    ¬ specTiesByFirstEncounter ["zebra", "2025"] := by
  decide

/-- C3, amended: the output is sorted by count in descending order, and
entries with equal counts appear in the order the counts object enumerates
them (array-index-like labels first in ascending numeric order, then the
remaining labels in first-encounter order); when no normalized label is an
array-index string this is exactly first-encounter order. -/
theorem deduplicateAlerts_sorted_stable (subjects : List String) :
    (deduplicateAlerts subjects).Pairwise countGE ∧
    ∀ a b : AlertEntry, countGE a b →
      List.Sublist [a, b] (preSortEntries subjects) →
      List.Sublist [a, b] (deduplicateAlerts subjects) :=
  ⟨List.sorted_insertionSort countGE (preSortEntries subjects),
   fun _ _ hab h => List.pair_sublist_insertionSort hab h⟩

/-- Witness for C3's amended theorem at the concrete input `["a", "b"]`. -/
theorem deduplicateAlerts_sorted_stable_witness :
    (deduplicateAlerts ["a", "b"]).Pairwise countGE ∧
      List.Sublist [⟨"a", 1⟩, ⟨"b", 1⟩] (deduplicateAlerts ["a", "b"]) :=
  ⟨(deduplicateAlerts_sorted_stable ["a", "b"]).1,
   (deduplicateAlerts_sorted_stable ["a", "b"]).2 ⟨"a", 1⟩ ⟨"b", 1⟩
     (by decide) (by decide)⟩

/-- C4: the aggregation's output contains no duplicate normalized labels:
the counts object has distinct keys, and both the enumeration and the sort
only permute its entries. -/
theorem deduplicateAlerts_labels_nodup (subjects : List String) :
    ((deduplicateAlerts subjects).map (fun a => a.label)).Nodup := by
  have hperm := (deduplicateAlerts_perm subjects).map (fun a => a.label)
  rw [hperm.nodup_iff, List.map_map]
  have : ((fun a : AlertEntry => a.label) ∘ fun p : String × Int =>
      AlertEntry.mk p.1 p.2) = Prod.fst := rfl
  rw [this]
  exact accumulate_fst_nodup subjects

unseal Rat.mul Rat.add Rat.inv in
/-- C5, counterexample: `calculateTopAlertsPercent([], 5)` divides 0 by 0,
producing `NaN`, and `NaN.toFixed(2)` is the string `"NaN"`, not
`"0.00"` — there is no zero-total guard at src/Code.js:407-411. -/
theorem claimC5_counterexample :
    calculateTopAlertsPercent [] 5 = "NaN" ∧ "NaN" ≠ "0.00" := by
  decide

unseal Rat.mul Rat.add Rat.inv in
/-- C5, amended: `calculateTotalAlertsCount([])` is 0, and
`calculateTopAlertsPercent([], 5)` returns `"NaN"` (the unguarded `0 / 0`
division), not `"0.00"`. -/
theorem totalCount_empty_and_percent_nan :
    calculateTotalAlertsCount [] = 0 ∧
      calculateTopAlertsPercent [] 5 = "NaN" := by
  decide

/-- C6, counterexample: in an environment whose `SplunkOnCall` sheet lacks
the required columns and whose mail search yields a subject, the exception
thrown while processing the SplunkOnCall section ends the run before the
EmailAlerts section: no sheet at all is written, although the email fetch
on its own would have produced data. -/
theorem claimC6_counterexample :
    fetchEmailAlerts ⟨some ⟨[["Foo"]]⟩, ["Ping"]⟩ = [⟨"ping", 1⟩] ∧
      runAlertsAnalysis ⟨some ⟨[["Foo"]]⟩, ["Ping"]⟩ =
        ([], some (.error "Required columns not found in the SplunkOnCall sheet")) := by
  decide

/-- C6, amended: `runAlertsAnalysis` has no try/catch around its `forEach`
(src/Code.js:11-16), and `Object.keys(SHEET_NAMES)` enumerates
`SplunkOnCall` first; an exception thrown while fetching the SplunkOnCall
source therefore aborts the whole pass before the EmailAlerts section is
processed, so nothing is written for either source. -/
theorem runAlertsAnalysis_aborts_on_splunk_error (env : Env) (e : JsError)
    (h : fetchSplunkOnCallData env = .error e) :
    runAlertsAnalysis env = ([], some e) := by
  simp [runAlertsAnalysis, runSources, processAlerts, fetchAlertsData, h, Except.map]

/-- Witness for C6's amended theorem at a concrete environment. -/
theorem runAlertsAnalysis_aborts_on_splunk_error_witness :
    runAlertsAnalysis ⟨some ⟨[["Foo"]]⟩, ["Ping"]⟩ =
      ([], some (.error "Required columns not found in the SplunkOnCall sheet")) :=
  runAlertsAnalysis_aborts_on_splunk_error ⟨some ⟨[["Foo"]]⟩, ["Ping"]⟩
    (.error "Required columns not found in the SplunkOnCall sheet") rfl

/-- C7: when the `SplunkOnCall` sheet exists but its header row lacks the
column `Service` or the column `Number Of Alerts`, `fetchSplunkOnCallData`
throws the error `Required columns not found in the SplunkOnCall sheet`
(src/Code.js:65-67) and returns no partial result. -/
theorem fetchSplunkOnCallData_missing_columns (env : Env) (sheet : SheetData)
    (columnHeaders : List String) (dataRows : List (List String))
    (hsheet : env.splunkOnCallSheet = some sheet)
    (hrows : sheet.rows = columnHeaders :: dataRows)
    (hmiss : "Service" ∉ columnHeaders ∨ "Number Of Alerts" ∉ columnHeaders) :
    fetchSplunkOnCallData env =
      .error (.error "Required columns not found in the SplunkOnCall sheet") := by
  have hcond : jsIndexOf columnHeaders "Service" = -1 ∨
      jsIndexOf columnHeaders "Number Of Alerts" = -1 := by
    rcases hmiss with h | h
    · exact Or.inl (jsIndexOf_not_mem h)
    · exact Or.inr (jsIndexOf_not_mem h)
  simp [fetchSplunkOnCallData, hsheet, hrows, if_pos hcond]

/-- Witness for C7 at a concrete environment with header row `["Foo"]`. -/
theorem fetchSplunkOnCallData_missing_columns_witness :
    fetchSplunkOnCallData ⟨some ⟨[["Foo"]]⟩, []⟩ =
      .error (.error "Required columns not found in the SplunkOnCall sheet") :=
  fetchSplunkOnCallData_missing_columns ⟨some ⟨[["Foo"]]⟩, []⟩ ⟨[["Foo"]]⟩
    ["Foo"] [] rfl rfl (Or.inl (by decide))

/-- C8: normalization is idempotent — the code's normalizer is
`subject.toLowerCase()` (src/Code.js:441), lower-casing is idempotent
character by character, and every record's count contribution is the
constant 1, so re-normalizing an already-normalized label changes
nothing. -/
theorem jsToLowerCase_idempotent (s : String) :
    jsToLowerCase (jsToLowerCase s) = jsToLowerCase s := by
  unfold jsToLowerCase
  have : ((s.data.map Char.toLower).map Char.toLower) = s.data.map Char.toLower := by
    rw [List.map_map]
    exact List.map_congr_left (fun c _ => charToLower_toLower c)
  exact congrArg String.mk this

/-- C9: calling `fetchWithCache` twice in succession within the TTL window
invokes the producer exactly once — the first call (a miss) invokes it and
stores the result, the second call reads the stored entry back and invokes
nothing. -/
theorem fetchWithCache_second_call_cached (st : CacheState) (now₁ now₂ : Nat)
    (key : String) (ttlSeconds : Nat) (producer : List AlertEntry)
    (hmiss : cacheRead st now₁ key = none)
    (hwindow : now₂ < now₁ + ttlSeconds) :
    (fetchWithCache st now₁ key ttlSeconds producer).producerCalls = 1 ∧
    (fetchWithCache (fetchWithCache st now₁ key ttlSeconds producer).cache
      now₂ key ttlSeconds producer).producerCalls = 0 ∧
    (fetchWithCache (fetchWithCache st now₁ key ttlSeconds producer).cache
      now₂ key ttlSeconds producer).value =
      (fetchWithCache st now₁ key ttlSeconds producer).value := by
  have hfirst : fetchWithCache st now₁ key ttlSeconds producer =
      ⟨producer, ⟨(key, producer, now₁ + ttlSeconds) :: st.entries⟩, 1⟩ := by
    simp [fetchWithCache, hmiss]
  have hread : cacheRead ⟨(key, producer, now₁ + ttlSeconds) :: st.entries⟩
      now₂ key = some producer := by
    simp [cacheRead, List.find?, hwindow]
  rw [hfirst]
  simp [fetchWithCache, hread]

/-- Witness for C9 at a concrete cold cache, `now₁ = 0`, `now₂ = 1`,
TTL 21600 seconds (the 6-hour TTL the spec names). -/
theorem fetchWithCache_second_call_cached_witness :
    (fetchWithCache ⟨[]⟩ 0 "emailAlerts" 21600 [⟨"disk full", 2⟩]).producerCalls = 1 ∧
    (fetchWithCache (fetchWithCache ⟨[]⟩ 0 "emailAlerts" 21600 [⟨"disk full", 2⟩]).cache
      1 "emailAlerts" 21600 [⟨"disk full", 2⟩]).producerCalls = 0 ∧
    (fetchWithCache (fetchWithCache ⟨[]⟩ 0 "emailAlerts" 21600 [⟨"disk full", 2⟩]).cache
      1 "emailAlerts" 21600 [⟨"disk full", 2⟩]).value =
      (fetchWithCache ⟨[]⟩ 0 "emailAlerts" 21600 [⟨"disk full", 2⟩]).value :=
  fetchWithCache_second_call_cached ⟨[]⟩ 0 1 "emailAlerts" 21600
    [⟨"disk full", 2⟩] rfl (by decide)

/-- C10: when the spreadsheet has no sheet named `SplunkOnCall`, the guard
at src/Code.js:56-59 does not return `[]`: its logging statement reads the
undeclared identifier `sheetName`, so the call throws a `ReferenceError`. -/
theorem fetchSplunkOnCallData_missing_sheet (env : Env)
    (h : env.splunkOnCallSheet = none) :
    fetchSplunkOnCallData env = .error (.referenceError "sheetName") := by
  simp [fetchSplunkOnCallData, h]

/-- Witness for C10 at the concrete environment with no sheet. -/
theorem fetchSplunkOnCallData_missing_sheet_witness :
    fetchSplunkOnCallData ⟨none, ["Ping"]⟩ = .error (.referenceError "sheetName") :=
  fetchSplunkOnCallData_missing_sheet ⟨none, ["Ping"]⟩ rfl

end AlertReview
